import Mathlib

/-!
Verification development for the Remote Execution & Connectivity Layer of the
Drone-Control repository (`ssh_executor.py`, versions v1.1 and v1.3).

Shallow embedding conventions:
* Python floats are modelled as `Rat`; the one-decimal formatting
  `float(f"{x:.1f}")` is modelled by `round1`, which rounds to one decimal
  with ties going to even (the format rounding of Python), a distinction that is
  irrelevant for every value appearing in the claims.
* Network effects are modelled by explicit environments: a per-attempt
  outcome function for the SSH command loops, a per-attempt boolean for the
  TCP reachability loop, and a `(host, port) → Bool` oracle for
  `test_connection` (which consumes `is_reachable` as a black box).
* Python string truthiness (`if self.current_ip:`) becomes `≠ ""`;
  the optional secondary address is `Option String`.
* The regular-expression scans of the temperature pipeline are embedded as
  character-list scanners implementing the same matching semantics as
  `re.finditer` / `re.search` for the concrete patterns in the source
  (`temperature:\s*(-?\d+(?:\.\d+)?)` and `(-?\d+(?:\.\d+)?)\s*°?\s*[Cc]\b`).
* Python `float(str)` conversion, applied by the source to sensor output, is
  modelled by `parseFloat` on plain signed decimal literals (the shapes the
  sensors produce); a non-parsing string raises in Python and is caught,
  yielding `none` here.
-/

unseal Rat.mul Rat.add Rat.sub Rat.inv Rat.ofScientific

namespace DroneControl

/-! ## Character and number parsing helpers -/

/-- Whitespace characters matched by the regex class `\s`. -/
def isWS (c : Char) : Bool :=
  c = ' ' || c = '\t' || c = '\n' || c = '\r' || c = '\x0b' || c = '\x0c'

/-- ASCII digit test, the regex class `\d`. -/
def isDigitCh (c : Char) : Bool := '0' ≤ c && c ≤ '9'

/-- Word characters for the regex boundary `\b`: `[A-Za-z0-9_]`. -/
def isWordCh (c : Char) : Bool :=
  ('A' ≤ c && c ≤ 'Z') || ('a' ≤ c && c ≤ 'z') || isDigitCh c || c = '_'

/-- Numeric value of a digit character. -/
def digitVal (c : Char) : Nat := c.toNat - '0'.toNat

/-- Take the maximal leading run of digits (greedy `\d+` / `\d*`). -/
def takeDigits : List Char → List Char × List Char
  | [] => ([], [])
  | c :: cs =>
    if isDigitCh c then
      let (ds, rest) := takeDigits cs
      (c :: ds, rest)
    else ([], c :: cs)

/-- Value of a digit run read in base 10. -/
def digitsToNat (ds : List Char) : Nat :=
  List.foldl (fun a c => 10 * a + digitVal c) 0 ds

/-- Drop leading regex whitespace (`\s*`). -/
def skipWS : List Char → List Char
  | [] => []
  | c :: cs => if isWS c then skipWS cs else c :: cs

/-- Match the regex fragment `-?\d+(?:\.\d+)?` at the head of the input,
returning the parsed value and the remaining input. Both the digit run and
the optional fraction are greedy, exactly as in the source patterns; a dot
not followed by a digit is left unconsumed. -/
def parseNumber (cs : List Char) : Option (Rat × List Char) :=
  let (neg, cs1) :=
    match cs with
    | '-' :: r => (true, r)
    | _ => (false, cs)
  let (ds, cs2) := takeDigits cs1
  if ds = [] then none
  else
    let intPart : Rat := (digitsToNat ds : Nat)
    let (fracPart, cs3) : Rat × List Char :=
      match cs2 with
      | '.' :: r =>
        let (fs, r2) := takeDigits r
        if fs = [] then ((0 : Rat), cs2)
        else (((digitsToNat fs : Nat) : Rat) / ((10 : Rat) ^ fs.length), r2)
      | _ => ((0 : Rat), cs2)
    let v := intPart + fracPart
    some (if neg then -v else v, cs3)

/-- Literal-prefix matcher: `matchLit lit cs` returns the suffix of `cs`
after `lit` when `lit` is a prefix of `cs`. -/
def matchLit : List Char → List Char → Option (List Char)
  | [], cs => some cs
  | _ :: _, [] => none
  | l :: ls, c :: cs => if l = c then matchLit ls cs else none

/-- Model of Python `float(s)` on the plain signed decimal literals produced
by the sensors; any trailing junk makes the conversion fail (raise), which
the source catches. -/
def parseFloat (s : String) : Option Rat :=
  match parseNumber s.data with
  | some (v, []) => some v
  | _ => none

/-- Model of `float(f"{x:.1f}")`: round to one decimal, ties to even. -/
def round1 (q : Rat) : Rat :=
  let x := q * 10
  let f : Int := ⌊x⌋
  let r : Rat := x - (f : Rat)
  let n : Int :=
    if r < 1/2 then f
    else if 1/2 < r then f + 1
    else if f % 2 = 0 then f else f + 1
  (n : Rat) / 10

/-! ## Temperature pipeline (v1.3 `get_wifi_module_temperature`) -/

/-- The plausibility clamp used throughout the pipeline:
`clamp_min, clamp_max = -40.0, 130.0`. -/
def inRange (v : Rat) : Bool := -40 ≤ v && v ≤ 130

/-- All values captured by `re.finditer(r"temperature:\s*(-?\d+(?:\.\d+)?)", out)`,
in order of occurrence. The scanner tries a match at every position and
always advances one character; for this pattern that coincides with
the resume-after-match semantics of finditer, because no new occurrence of the
literal `temperature:` can begin strictly inside a previous match. -/
def scanTemps : List Char → List Rat
  | [] => []
  | c :: cs =>
    match matchLit "temperature:".data (c :: cs) with
    | some rest =>
      match parseNumber (skipWS rest) with
      | some (v, _) => v :: scanTemps cs
      | none => scanTemps cs
    | none => scanTemps cs

/-- Parsed `temperature:` values of a thermal-state text. -/
def parseTemps (s : String) : List Rat := scanTemps s.data

/-- Maximum of a list (Python `max(temps)`), `none` on the empty list. -/
def listMax : List Rat → Option Rat
  | [] => none
  | x :: xs => some (List.foldl max x xs)

/-- Tier A (driver procfs `thermal_state`): collect the parsed values lying
in the clamp range; if any, return the hottest, formatted to one decimal. -/
def tierA (text : String) : Option Rat :=
  match listMax ((parseTemps text).filter (fun t => inRange t)) with
  | some m => some (round1 m)
  | none => none

/-- Match of `(-?\d+(?:\.\d+)?)\s*°?\s*[Cc]\b` anchored at the head of the
input. Greedy number, optional whitespace, optional degree sign, optional
whitespace, a `C` or `c`, then a word boundary (end of input or a non-word
character). Backtracking over the greedy groups can never turn a failure
into a success for this pattern, so the anchored matcher needs none. -/
def matchTempC (cs : List Char) : Option Rat :=
  match parseNumber cs with
  | none => none
  | some (v, rest) =>
    let r1 := skipWS rest
    let r2 := match r1 with
      | '°' :: t => t
      | _ => r1
    let r3 := skipWS r2
    match r3 with
    | [] => none
    | c :: t =>
      if (c = 'C' || c = 'c') &&
          (match t with
           | [] => true
           | d :: _ => !isWordCh d) then some v
      else none

/-- `re.search` for the Tier B pattern: first position (left to right) where
the anchored match succeeds. -/
def searchTempC : List Char → Option Rat
  | [] => none
  | c :: cs =>
    match matchTempC (c :: cs) with
    | some v => some v
    | none => searchTempC cs

/-- Tier B (`wfb-cli` output): first `<number> °C`-shaped token; accepted
only when in the clamp range, otherwise fall through. -/
def tierB (text : String) : Option Rat :=
  match searchTempC text.data with
  | some v => if inRange v then some (round1 v) else none
  | none => none

/-- Tier C (sysfs hwmon `temp1_input`): parse the read value; a raw value
exceeding 200 is millidegrees and is divided by 1000; accept if in range. -/
def tierC (text : String) : Option Rat :=
  if text = "" then none
  else
    match parseFloat text with
    | none => none
    | some v =>
      let v2 := if 200 < v then v / 1000 else v
      if inRange v2 then some (round1 v2) else none

/-- The remote texts observed by one run of the pipeline: the resolved
interface name (empty when none was found), the Tier A thermal-state text,
the Tier B tool output, and the Tier C sensor value text. -/
structure ProbeEnv where
  iface : String
  tierAText : String
  tierBText : String
  tierCText : String
deriving DecidableEq

/-- v1.3 `get_wifi_module_temperature`: Tier A (only when an interface was
resolved), then Tier B, then Tier C; `none` when no tier yields a plausible
value. -/
def get_wifi_module_temperature (env : ProbeEnv) : Option Rat :=
  match (if env.iface ≠ "" then tierA env.tierAText else none) with
  | some t => some t
  | none =>
    match tierB env.tierBText with
    | some t => some t
    | none => tierC env.tierCText

/-! ## Legacy temperature variant (v1.1 Tier A linear transform) -/

/-- v1.1: `temp_c = (raw - offset) * scale`, replaced by `raw` itself when
the transform is implausible but the raw value is a plausible Celsius
reading. -/
def legacyTransform (offset scale raw : Rat) : Rat :=
  let t := (raw - offset) * scale
  if !inRange t && inRange raw then raw else t

/-- v1.1 preferred tier: apply the linear transform with raw fallback and
return the one-decimal value when plausible. -/
def legacyTierA (offset scale raw : Rat) : Option Rat :=
  let t := legacyTransform offset scale raw
  if inRange t then some (round1 t) else none

/-! ## Command execution (`execute_command`, `execute_command_capture`) -/

/-- Outcome of one loop iteration of a command-executing method, decided by
the network environment: the connect can raise a transport error before
anything is transmitted, raise an authentication error, or succeed, in
which case the command is transmitted and finishes with an exit status and
the two output streams. -/
inductive AttemptOutcome where
  | connectFail
  | authFail
  | exited (status : Int) (out err : String)
deriving DecidableEq

/-- Observable trace of one `execute_command` call: the returned boolean,
the number of connection attempts made, the number of `time.sleep(5)`
retry delays, and the list of command strings transmitted with
`ssh.exec_command`. -/
structure ExecTrace where
  ok : Bool
  attempts : Nat
  sleeps : Nat
  sent : List String
deriving DecidableEq

/-- The string actually passed to `ssh.exec_command`: a command starting
with `"sudo "` is rewritten to pipe the endpoint secret into `sudo -S`;
any other command is transmitted unchanged. The Python prefix test and the
slice `command[5:]` are expressed on the character list. -/
def transmittedCommand (password command : String) : String :=
  if "sudo ".data.isPrefixOf command.data then
    "echo " ++ password ++ " | sudo -S " ++ String.mk (command.data.drop 5)
  else command

/-- The `for attempt in range(max_attempts)` loop of `execute_command`,
indexed by remaining iterations and the current attempt index. A session
that runs the command returns immediately (`True` on exit status 0,
`False` otherwise); a connect or authentication failure falls through,
sleeping 5 seconds unless this was the last attempt. -/
def execLoop (cmd : String) (outcomes : Nat → AttemptOutcome) :
    Nat → Nat → ExecTrace
  | 0, _ => ⟨false, 0, 0, []⟩
  | remaining + 1, idx =>
    match outcomes idx with
    | .exited status _ _ => ⟨status == 0, 1, 0, [cmd]⟩
    | _ =>
      if remaining = 0 then ⟨false, 1, 0, []⟩
      else
        let rest := execLoop cmd outcomes remaining (idx + 1)
        ⟨rest.ok, rest.attempts + 1, rest.sleeps + 1, rest.sent⟩

/-- `execute_command`: guard on a configured address and secret, then run
the retry loop on the (possibly elevation-rewritten) command. -/
def execute_command (password command current_ip : String)
    (maxAttempts : Nat) (outcomes : Nat → AttemptOutcome) : ExecTrace :=
  if current_ip = "" ∨ password = "" then ⟨false, 0, 0, []⟩
  else execLoop (transmittedCommand password command) outcomes maxAttempts 0

/-- Observable trace of one `execute_command_capture` call: the returned
4-tuple `(ok, stdout, stderr, exit_status)` plus attempt, sleep and
transmission counts. -/
structure CaptureTrace where
  ok : Bool
  out : String
  err : String
  status : Int
  attempts : Nat
  sleeps : Nat
  sent : List String
deriving DecidableEq

/-- The retry loop of `execute_command_capture`: identical retry structure,
but the command is transmitted exactly as given (no elevation rewrite) and
any completed execution returns the captured streams and status at once. -/
def execCaptureLoop (cmd : String) (outcomes : Nat → AttemptOutcome) :
    Nat → Nat → CaptureTrace
  | 0, _ => ⟨false, "", "max attempts exceeded", -1, 0, 0, []⟩
  | remaining + 1, idx =>
    match outcomes idx with
    | .exited status out err => ⟨status == 0, out, err, status, 1, 0, [cmd]⟩
    | _ =>
      if remaining = 0 then ⟨false, "", "max attempts exceeded", -1, 1, 0, []⟩
      else
        let rest := execCaptureLoop cmd outcomes remaining (idx + 1)
        ⟨rest.ok, rest.out, rest.err, rest.status,
         rest.attempts + 1, rest.sleeps + 1, rest.sent⟩

/-- `execute_command_capture`: guard, then the capture loop on the verbatim
command string. -/
def execute_command_capture (password command current_ip : String)
    (maxAttempts : Nat) (outcomes : Nat → AttemptOutcome) : CaptureTrace :=
  if current_ip = "" ∨ password = "" then ⟨false, "", "no ip/password", -1, 0, 0, []⟩
  else execCaptureLoop command outcomes maxAttempts 0

/-! ## Reachability (`is_reachable`) -/

/-- Observable trace of one `is_reachable` call. -/
structure ReachTrace where
  ok : Bool
  attempts : Nat
  sleeps : Nat
deriving DecidableEq

/-- The `for attempt in range(max_attempts)` loop of `is_reachable`, with
`conn i` the success of the `socket.create_connection` on attempt `i`:
return `True` immediately on success, sleep 5 seconds after a failure
unless it was the last attempt, return `False` when attempts run out. -/
def reachLoop (conn : Nat → Bool) : Nat → Nat → ReachTrace
  | 0, _ => ⟨false, 0, 0⟩
  | remaining + 1, idx =>
    if conn idx then ⟨true, 1, 0⟩
    else if remaining = 0 then ⟨false, 1, 0⟩
    else
      let rest := reachLoop conn remaining (idx + 1)
      ⟨rest.ok, rest.attempts + 1, rest.sleeps + 1⟩

/-- `is_reachable` with `maxAttempts` attempts. -/
def is_reachable (conn : Nat → Bool) (maxAttempts : Nat) : ReachTrace :=
  reachLoop conn maxAttempts 0

/-! ## Connection test and dual-target execution -/

/-- The mutable target state of the executor instance: the active
companion address (`current_ip`/`current_port`) and the optional secondary
address. -/
structure ConnState where
  current_ip : String
  current_port : String
  secondary_ip : Option String
  secondary_port : String
deriving DecidableEq

/-- `test_connection`, with `reach host port` the result of the black-box
`is_reachable` probe: probe the active address first and return it when
reachable; otherwise probe the secondary and, when reachable, mutate the
active address to the secondary and return it; otherwise return `None`. -/
def test_connection (reach : String → String → Bool) (s : ConnState) :
    Option String × ConnState :=
  if s.current_ip ≠ "" ∧ reach s.current_ip s.current_port = true then
    (some s.current_ip, s)
  else
    match s.secondary_ip with
    | some sec =>
      if sec ≠ "" ∧ reach sec s.secondary_port = true then
        (some sec, { s with current_ip := sec, current_port := s.secondary_port })
      else (none, s)
    | none => (none, s)

/-- `execute_command_all`: run the command against the current target; when
a secondary is configured, swap the active address to the secondary, run
the command again, and restore the saved address; succeed only when both
sub-executions succeed. The network environment `outcomes` is indexed by
the target address. -/
def execute_command_all (password command : String) (maxAttempts : Nat)
    (outcomes : String → String → Nat → AttemptOutcome) (s : ConnState) :
    Bool × ConnState :=
  let primary :=
    (execute_command password command s.current_ip maxAttempts
      (outcomes s.current_ip s.current_port)).ok
  match s.secondary_ip with
  | some sec =>
    if sec ≠ "" then
      let s1 : ConnState := { s with current_ip := sec, current_port := s.secondary_port }
      let secondary :=
        (execute_command password command s1.current_ip maxAttempts
          (outcomes s1.current_ip s1.current_port)).ok
      let s2 : ConnState := { s1 with current_ip := s.current_ip, current_port := s.current_port }
      (primary && secondary, s2)
    else (primary && true, s)
  | none => (primary && true, s)

/-! ## Concrete instances used by witnesses and counterexamples -/

/-- Registry state with a primary and a configured secondary, the active
target still pointing at the primary. -/
def failoverState : ConnState := ⟨"10.5.6.100", "2222", some "10.5.6.101", "22"⟩

/-- World in which only the secondary address accepts connections. -/
def reachSecondaryOnly : String → String → Bool := fun ip _ => ip == "10.5.6.101"

/-- World in which every address accepts connections. -/
def reachEverything : String → String → Bool := fun _ _ => true

/-- Small registry state for the amended-claim witness. -/
def wState : ConnState := ⟨"P", "1", some "S", "2"⟩

/-- World reaching only host `"S"`. -/
def wReach : String → String → Bool := fun ip _ => ip == "S"

/-- World reaching every host. -/
def wReach2 : String → String → Bool := fun _ _ => true

/-- Pipeline environment in which Tiers A and B see nothing and the sysfs
sensor reads `9999`. -/
def tierCOnlyEnv : ProbeEnv := ⟨"", "", "", "9999"⟩

/-- Pipeline environment with a two-radio thermal-state text. -/
def tierAEnv : ProbeEnv := ⟨"wlan0", "temperature: 45 temperature: 52", "", ""⟩

/-- Connection succeeding on the second attempt only. -/
def connSecond : Nat → Bool := fun i => i == 1

/-! ## Helper lemmas -/

/-- A retry loop in which every remaining attempt fails at the transport or
authentication step makes exactly one attempt per iteration, sleeps between
consecutive attempts only, transmits nothing and returns failure. -/
theorem execLoop_allFail (cmd : String) (o : Nat → AttemptOutcome) :
    ∀ r idx, 0 < r →
      (∀ i, i < r → o (idx + i) = .connectFail ∨ o (idx + i) = .authFail) →
      execLoop cmd o r idx = ⟨false, r, r - 1, []⟩ := by
  intro r
  induction r with
  | zero => intro idx h; exact absurd h (lt_irrefl 0)
  | succ m ih =>
    intro idx _ hfail
    have h0 := hfail 0 (Nat.succ_pos m)
    rw [Nat.add_zero] at h0
    rcases Nat.eq_zero_or_pos m with hm | hm
    · subst hm
      rcases h0 with h0 | h0 <;> simp [execLoop, h0]
    · have hshift : ∀ i, i < m →
          o (idx + 1 + i) = .connectFail ∨ o (idx + 1 + i) = .authFail := by
        intro i hi
        have := hfail (i + 1) (Nat.succ_lt_succ hi)
        rwa [show idx + (i + 1) = idx + 1 + i by omega] at this
      have IH := ih (idx + 1) hm hshift
      have hm0 : m ≠ 0 := Nat.pos_iff_ne_zero.mp hm
      rcases h0 with h0 | h0 <;>
        simp [execLoop, h0, hm0, IH, Nat.succ_pred_eq_of_pos hm]
      <;> omega

/-- The retry loop transmits either nothing or the single given command. -/
theorem execLoop_sent (cmd : String) (o : Nat → AttemptOutcome) :
    ∀ r idx, (execLoop cmd o r idx).sent = [] ∨ (execLoop cmd o r idx).sent = [cmd] := by
  intro r
  induction r with
  | zero => intro idx; left; rfl
  | succ m ih =>
    intro idx
    cases ho : o idx with
    | exited status out err => right; simp [execLoop, ho]
    | connectFail =>
      rcases Nat.eq_zero_or_pos m with hm | hm
      · subst hm; left; simp [execLoop, ho]
      · have := ih (idx + 1)
        simpa [execLoop, ho, Nat.pos_iff_ne_zero.mp hm] using this
    | authFail =>
      rcases Nat.eq_zero_or_pos m with hm | hm
      · subst hm; left; simp [execLoop, ho]
      · have := ih (idx + 1)
        simpa [execLoop, ho, Nat.pos_iff_ne_zero.mp hm] using this

/-- The capture retry loop transmits either nothing or the single given
command. -/
theorem execCaptureLoop_sent (cmd : String) (o : Nat → AttemptOutcome) :
    ∀ r idx, (execCaptureLoop cmd o r idx).sent = [] ∨
      (execCaptureLoop cmd o r idx).sent = [cmd] := by
  intro r
  induction r with
  | zero => intro idx; left; rfl
  | succ m ih =>
    intro idx
    cases ho : o idx with
    | exited status out err => right; simp [execCaptureLoop, ho]
    | connectFail =>
      rcases Nat.eq_zero_or_pos m with hm | hm
      · subst hm; left; simp [execCaptureLoop, ho]
      · have := ih (idx + 1)
        simpa [execCaptureLoop, ho, Nat.pos_iff_ne_zero.mp hm] using this
    | authFail =>
      rcases Nat.eq_zero_or_pos m with hm | hm
      · subst hm; left; simp [execCaptureLoop, ho]
      · have := ih (idx + 1)
        simpa [execCaptureLoop, ho, Nat.pos_iff_ne_zero.mp hm] using this

/-- Closed form of the reachability loop: either some attempt `k` is the
first success, in which case the loop stops after `k + 1` attempts and `k`
sleeps with result `true`, or every attempt fails and the loop makes all
`r` attempts with `r - 1` sleeps and result `false`. -/
theorem reachLoop_cases (conn : Nat → Bool) :
    ∀ r idx, 0 < r →
      (∃ k, k < r ∧ conn (idx + k) = true ∧
        (∀ i, i < k → conn (idx + i) = false) ∧
        reachLoop conn r idx = ⟨true, k + 1, k⟩) ∨
      ((∀ i, i < r → conn (idx + i) = false) ∧
        reachLoop conn r idx = ⟨false, r, r - 1⟩) := by
  intro r
  induction r with
  | zero => intro idx h; exact absurd h (lt_irrefl 0)
  | succ m ih =>
    intro idx _
    by_cases h : conn idx = true
    · left
      exact ⟨0, Nat.succ_pos m, by simpa using h,
        fun i hi => absurd hi (Nat.not_lt_zero i), by simp [reachLoop, h]⟩
    · have h' : conn idx = false := by simpa using h
      rcases Nat.eq_zero_or_pos m with hm | hm
      · subst hm
        right
        refine ⟨fun i hi => ?_, by simp [reachLoop, h']⟩
        interval_cases i
        simpa using h'
      · have hm0 : m ≠ 0 := Nat.pos_iff_ne_zero.mp hm
        rcases ih (idx + 1) hm with ⟨k, hk, hsucc, hbefore, heq⟩ | ⟨hall, heq⟩
        · left
          refine ⟨k + 1, Nat.succ_lt_succ hk, ?_, ?_, ?_⟩
          · rwa [show idx + (k + 1) = idx + 1 + k by omega]
          · intro i hi
            cases i with
            | zero => simpa using h'
            | succ j =>
              have hj : j < k := by omega
              have := hbefore j hj
              rwa [show idx + (j + 1) = idx + 1 + j by omega]
          · simp [reachLoop, h', hm0, heq]
        · right
          refine ⟨?_, ?_⟩
          · intro i hi
            cases i with
            | zero => simpa using h'
            | succ j =>
              have hj : j < m := by omega
              have := hall j hj
              rwa [show idx + (j + 1) = idx + 1 + j by omega]
          · simp [reachLoop, h', hm0, heq]
            omega

/-! ## Claim theorems -/

/-- C3: for every command and every positive attempt bound `n`, if every
attempt fails with a transport or authentication error, `execute_command`
makes exactly `n` connection attempts, sleeps the fixed 5-second retry
delay exactly `n - 1` times (between consecutive attempts only, never
after the last), transmits nothing, and returns failure. -/
theorem retry_exhaustion_c3 (password command current_ip : String) (n : Nat)
    (o : Nat → AttemptOutcome) (hn : 0 < n) (hip : current_ip ≠ "")
    (hpw : password ≠ "")
    (hfail : ∀ i, i < n → o i = .connectFail ∨ o i = .authFail) :
    execute_command password command current_ip n o = ⟨false, n, n - 1, []⟩ := by
  rw [execute_command, if_neg (not_or.mpr ⟨hip, hpw⟩)]
  exact execLoop_allFail (transmittedCommand password command) o n 0 hn
    (fun i hi => by rw [Nat.zero_add]; exact hfail i hi)

/-- Witness for C3: three transport-failing attempts yield failure after
exactly 3 attempts and 2 sleeps. -/
theorem retry_exhaustion_c3_witness :
    execute_command "pw" "ls" "10.5.6.100" 3 (fun _ => .connectFail) =
      ⟨false, 3, 2, []⟩ :=
  retry_exhaustion_c3 "pw" "ls" "10.5.6.100" 3 (fun _ => .connectFail)
    (by decide) (by decide) (by decide) (fun i _ => Or.inl rfl)

/-- C4: when the first session attempt connects and the remote command
finishes with a non-zero exit status, `execute_command` returns failure
immediately on that attempt: one connection attempt, zero sleeps, and one
transmitted command, whatever the attempt bound allows. -/
theorem nonzero_exit_c4 (password command current_ip : String) (n : Nat)
    (o : Nat → AttemptOutcome) (status : Int) (out err : String)
    (hn : 0 < n) (hip : current_ip ≠ "") (hpw : password ≠ "")
    (h0 : o 0 = .exited status out err) (hst : status ≠ 0) :
    execute_command password command current_ip n o =
      ⟨false, 1, 0, [transmittedCommand password command]⟩ := by
  obtain ⟨m, rfl⟩ : ∃ m, n = m + 1 := ⟨n - 1, by omega⟩
  rw [execute_command, if_neg (not_or.mpr ⟨hip, hpw⟩)]
  have hb : (status == 0) = false := by simpa using hst
  simp [execLoop, h0, hb]

/-- Witness for C4: a non-zero remote exit on the first of five allowed
attempts returns failure at once. -/
theorem nonzero_exit_c4_witness :
    execute_command "pw" "ls" "10.5.6.100" 5
        (fun _ => .exited 2 "" "not found") =
      ⟨false, 1, 0, [transmittedCommand "pw" "ls"]⟩ :=
  nonzero_exit_c4 "pw" "ls" "10.5.6.100" 5 (fun _ => .exited 2 "" "not found")
    2 "" "not found" (by decide) (by decide) (by decide) rfl (by decide)

/-- C5: a command starting with `"sudo "` is transmitted exactly as the
piped-elevation string `"echo " ++ secret ++ " | sudo -S " ++ remainder`
(so the whole transmitted string is that construction applied to the
original remainder, and the secret occurs nowhere outside it); a command
without the marker is transmitted unchanged; and every string transmitted
by `execute_command` is exactly this rewritten command. -/
theorem elevation_rewrite_c5 (password command : String) :
    ("sudo ".data.isPrefixOf command.data = true →
      transmittedCommand password command =
        "echo " ++ password ++ " | sudo -S " ++ String.mk (command.data.drop 5)) ∧
    ("sudo ".data.isPrefixOf command.data = false →
      transmittedCommand password command = command) ∧
    (∀ current_ip n o s,
      s ∈ (execute_command password command current_ip n o).sent →
      s = transmittedCommand password command) := by
  refine ⟨fun h => ?_, fun h => ?_, fun current_ip n o s hs => ?_⟩
  · rw [transmittedCommand, if_pos h]
  · rw [transmittedCommand, if_neg (by simp [h])]
  · rw [execute_command] at hs
    by_cases hg : current_ip = "" ∨ password = ""
    · rw [if_pos hg] at hs
      exact absurd hs (List.not_mem_nil s)
    · rw [if_neg hg] at hs
      rcases execLoop_sent (transmittedCommand password command) o n 0 with h | h
      · rw [h] at hs
        exact absurd hs (List.not_mem_nil s)
      · rw [h] at hs
        simpa using hs

/-- Witness for C5: the rewrite on a concrete elevated command and the
identity on a concrete plain command. -/
theorem elevation_rewrite_c5_witness :
    transmittedCommand "hunter2" "sudo systemctl restart wifibroadcast" =
      "echo hunter2 | sudo -S systemctl restart wifibroadcast" ∧
    transmittedCommand "hunter2" "ls /tmp" = "ls /tmp" := by
  constructor
  · have h := (elevation_rewrite_c5 "hunter2"
      "sudo systemctl restart wifibroadcast").1 (by decide)
    rw [h]
    decide
  · exact (elevation_rewrite_c5 "hunter2" "ls /tmp").2.1 (by decide)

/-- C10: `execute_command_capture` transmits the command verbatim — its
transmitted list is empty or the single original command string, with no
elevation rewrite even for `"sudo "`-prefixed commands — and its whole
observable trace does not depend on which (non-empty) secret is
configured. -/
theorem capture_verbatim_c10 (password password2 command current_ip : String)
    (n : Nat) (o : Nat → AttemptOutcome) :
    ((execute_command_capture password command current_ip n o).sent = [] ∨
     (execute_command_capture password command current_ip n o).sent = [command]) ∧
    (password ≠ "" → password2 ≠ "" →
      execute_command_capture password command current_ip n o =
        execute_command_capture password2 command current_ip n o) := by
  constructor
  · rw [execute_command_capture]
    by_cases hg : current_ip = "" ∨ password = ""
    · rw [if_pos hg]; left; rfl
    · rw [if_neg hg]
      exact execCaptureLoop_sent command o n 0
  · intro h1 h2
    by_cases hip : current_ip = ""
    · rw [execute_command_capture, execute_command_capture,
        if_pos (Or.inl hip), if_pos (Or.inl hip)]
    · rw [execute_command_capture, execute_command_capture,
        if_neg (not_or.mpr ⟨hip, h1⟩), if_neg (not_or.mpr ⟨hip, h2⟩)]

/-- Witness for C10: a concrete `"sudo "`-prefixed command is transmitted
verbatim by the capture variant, and two different secrets yield identical
traces. -/
theorem capture_verbatim_c10_witness :
    ((execute_command_capture "a" "sudo reboot" "10.5.6.100" 1
        (fun _ => .exited 0 "ok" "")).sent = [] ∨
     (execute_command_capture "a" "sudo reboot" "10.5.6.100" 1
        (fun _ => .exited 0 "ok" "")).sent = ["sudo reboot"]) ∧
    execute_command_capture "a" "sudo reboot" "10.5.6.100" 1
        (fun _ => .exited 0 "ok" "") =
      execute_command_capture "b" "sudo reboot" "10.5.6.100" 1
        (fun _ => .exited 0 "ok" "") :=
  ⟨(capture_verbatim_c10 "a" "b" "sudo reboot" "10.5.6.100" 1
      (fun _ => .exited 0 "ok" "")).1,
   (capture_verbatim_c10 "a" "b" "sudo reboot" "10.5.6.100" 1
      (fun _ => .exited 0 "ok" "")).2 (by decide) (by decide)⟩

/-- C6: for every positive attempt bound `n`, `is_reachable` returns true
iff some of the first `n` connection attempts succeeds; it stops at the
first success (every earlier attempt failed), makes all `n` attempts
before returning false, and its sleep count is always one less than its
attempt count — a sleep between consecutive attempts only, never after the
final one. -/
theorem reachability_c6 (conn : Nat → Bool) (n : Nat) (hn : 0 < n) :
    ((is_reachable conn n).ok = true ↔ ∃ i, i < n ∧ conn i = true) ∧
    (is_reachable conn n).sleeps = (is_reachable conn n).attempts - 1 ∧
    0 < (is_reachable conn n).attempts ∧
    (is_reachable conn n).attempts ≤ n ∧
    ((is_reachable conn n).ok = false → (is_reachable conn n).attempts = n) ∧
    ((is_reachable conn n).ok = true →
      conn ((is_reachable conn n).attempts - 1) = true ∧
      ∀ i, i < (is_reachable conn n).attempts - 1 → conn i = false) := by
  rcases reachLoop_cases conn n 0 hn with ⟨k, hk, hsucc, hbefore, heq⟩ | ⟨hall, heq⟩
  · have hR : is_reachable conn n = ⟨true, k + 1, k⟩ := heq
    rw [Nat.zero_add] at hsucc
    rw [hR]
    dsimp only
    refine ⟨⟨fun _ => ⟨k, hk, hsucc⟩, fun _ => rfl⟩, by omega, by omega, by omega,
      fun h => absurd h (by simp), fun _ => ⟨by simpa using hsucc, ?_⟩⟩
    intro i hi
    have hi2 : i < k := by omega
    have := hbefore i hi2
    rwa [Nat.zero_add] at this
  · have hR : is_reachable conn n = ⟨false, n, n - 1⟩ := heq
    rw [hR]
    dsimp only
    refine ⟨⟨fun h => absurd h (by simp), fun hx => ?_⟩, rfl, hn, le_refl n,
      fun _ => rfl, fun h => absurd h (by simp)⟩
    obtain ⟨i, hi, hc⟩ := hx
    have := hall i hi
    rw [Nat.zero_add] at this
    rw [this] at hc
    exact absurd hc (by simp)

/-- Witness for C6: with a connection that succeeds on the second of three
attempts, `is_reachable` returns true and sleeps once for its two
attempts. -/
theorem reachability_c6_witness :
    (is_reachable connSecond 3).ok = true ∧
    (is_reachable connSecond 3).sleeps = (is_reachable connSecond 3).attempts - 1 :=
  ⟨(reachability_c6 connSecond 3 (by decide)).1.mpr ⟨1, by decide, by decide⟩,
   (reachability_c6 connSecond 3 (by decide)).2.1⟩

/-- C8: `execute_command_all` restores the active target state exactly,
whatever the sub-executions do, and returns true iff the sub-execution
against the current (primary) configuration succeeds and, when a non-empty
secondary is configured, the sub-execution against the secondary succeeds
as well. -/
theorem dual_target_c8 (password command : String) (n : Nat)
    (o : String → String → Nat → AttemptOutcome) (s : ConnState) :
    (execute_command_all password command n o s).2 = s ∧
    ((execute_command_all password command n o s).1 = true ↔
      (execute_command password command s.current_ip n
        (o s.current_ip s.current_port)).ok = true ∧
      (∀ sec, s.secondary_ip = some sec → sec ≠ "" →
        (execute_command password command sec n
          (o sec s.secondary_port)).ok = true)) := by
  rcases s with ⟨cip, cport, sip, sport⟩
  cases sip with
  | none => simp [execute_command_all]
  | some sec =>
    by_cases hsec : sec = ""
    · subst hsec
      simp [execute_command_all]
    · simp only [execute_command_all]
      rw [if_pos hsec]
      refine ⟨rfl, ?_⟩
      dsimp only
      simp only [Bool.and_eq_true]
      constructor
      · rintro ⟨h1, h2⟩
        refine ⟨h1, ?_⟩
        intro sec2 hsec2 _
        rw [Option.some.injEq] at hsec2
        subst hsec2
        exact h2
      · rintro ⟨h1, h2⟩
        exact ⟨h1, h2 sec rfl hsec⟩

/-- C1 counterexample: after a failover has moved the active target to the
secondary, a subsequent `test_connection` call in a world where the
primary is reachable again still returns the secondary host (the probe
starts from the mutated active target, not from the primary), refuting the
claimed re-evaluation from the primary. -/
theorem failover_sticky_counterexample_c1 :
    (test_connection reachSecondaryOnly failoverState).1 = some "10.5.6.101" ∧
    (test_connection reachEverything
        (test_connection reachSecondaryOnly failoverState).2).1 ≠
      some "10.5.6.100" ∧
    (test_connection reachEverything
        (test_connection reachSecondaryOnly failoverState).2).1 =
      some "10.5.6.101" := by decide

/-- C1 (amended): when the active target (initially the primary) is
unreachable and a non-empty secondary is configured and reachable,
`test_connection` returns the secondary host and mutates the active target
to the secondary; but each call probes the current active target rather
than the primary, so once the secondary is selected any further call in
which the secondary is reachable returns the secondary again — the
selection is sticky across calls. -/
theorem failover_c1_amended (reach reach2 : String → String → Bool)
    (s : ConnState) (sec : String)
    (hprim : reach s.current_ip s.current_port = false)
    (hsec : s.secondary_ip = some sec) (hne : sec ≠ "")
    (hreach : reach sec s.secondary_port = true) :
    (test_connection reach s).1 = some sec ∧
    (test_connection reach s).2 =
      { s with current_ip := sec, current_port := s.secondary_port } ∧
    (reach2 sec s.secondary_port = true →
      (test_connection reach2 (test_connection reach s).2).1 = some sec) := by
  have hno : ¬(s.current_ip ≠ "" ∧ reach s.current_ip s.current_port = true) := by
    rintro ⟨-, hb⟩
    rw [hprim] at hb
    exact Bool.false_ne_true hb
  have step1 : test_connection reach s =
      (some sec, { s with current_ip := sec, current_port := s.secondary_port }) := by
    rw [test_connection, if_neg hno, hsec]
    dsimp only
    rw [if_pos ⟨hne, hreach⟩]
  refine ⟨by rw [step1], by rw [step1], fun h2 => ?_⟩
  rw [step1]
  dsimp only
  rw [test_connection]
  rw [if_pos (show ({ s with current_ip := sec, current_port := s.secondary_port } :
      ConnState).current_ip ≠ "" ∧
    reach2 ({ s with current_ip := sec, current_port := s.secondary_port } :
      ConnState).current_ip
      ({ s with current_ip := sec, current_port := s.secondary_port } :
        ConnState).current_port = true from ⟨hne, h2⟩)]

/-- Witness for C1 (amended): concrete failover followed by a second call
in a world where everything (the primary included) is reachable, which
still returns the secondary. -/
theorem failover_c1_amended_witness :
    (test_connection wReach wState).1 = some "S" ∧
    (test_connection wReach2 (test_connection wReach wState).2).1 = some "S" :=
  ⟨(failover_c1_amended wReach wReach2 wState "S" (by decide) (by decide)
      (by decide) (by decide)).1,
   (failover_c1_amended wReach wReach2 wState "S" (by decide) (by decide)
      (by decide) (by decide)).2.2 (by decide)⟩

/-- C2 counterexample: with Tiers A and B yielding nothing and the sysfs
sensor reading `9999`, the pipeline does not return `None` — the raw value
exceeds 200, is normalized to 9.999 °C, and that lies inside the plausible
range. -/
theorem tierC_9999_counterexample_c2 :
    get_wifi_module_temperature tierCOnlyEnv ≠ none := by decide

/-- C2 (amended): when Tiers A and B yield no plausible reading and the
Tier C sysfs read returns the raw value `9999`, the pipeline returns
`10.0`: 9999 exceeds 200, so it is treated as millidegrees and divided by
1000 giving 9.999 °C, which is inside `[-40, 130]` and is therefore
accepted (and formatted to one decimal), not rejected. -/
theorem tierC_9999_c2_amended (env : ProbeEnv)
    (hA : env.iface = "" ∨ tierA env.tierAText = none)
    (hB : tierB env.tierBText = none) (hC : env.tierCText = "9999") :
    get_wifi_module_temperature env = some 10 := by
  have hAnone : (if env.iface ≠ "" then tierA env.tierAText else none) =
      (none : Option Rat) := by
    by_cases hi : env.iface = ""
    · rw [if_neg (by simp [hi])]
    · rcases hA with h | h
      · exact absurd h hi
      · rw [if_pos hi, h]
  rw [get_wifi_module_temperature, hAnone, hB, hC]
  decide

/-- Witness for C2 (amended): the concrete environment with only the Tier C
reading `9999` produces `10.0`. -/
theorem tierC_9999_c2_witness :
    get_wifi_module_temperature tierCOnlyEnv = some 10 :=
  tierC_9999_c2_amended tierCOnlyEnv (Or.inl rfl) (by decide) rfl

/-- C7: when an interface was resolved and the Tier A thermal-state text
contains `temperature: <number>` occurrences of which some lie in
`[-40, 130]`, the pipeline returns the maximum of the in-range parsed
values (formatted to one decimal). -/
theorem tierA_max_c7 (env : ProbeEnv) (m : Rat) (hif : env.iface ≠ "")
    (hmax : listMax ((parseTemps env.tierAText).filter (fun t => inRange t)) =
      some m) :
    get_wifi_module_temperature env = some (round1 m) := by
  have hA : (if env.iface ≠ "" then tierA env.tierAText else none) =
      some (round1 m) := by
    rw [if_pos hif, tierA, hmax]
  rw [get_wifi_module_temperature, hA]

/-- Witness for C7: the two-radio text `"temperature: 45 temperature: 52"`
yields `52.0`. -/
theorem tierA_max_c7_witness :
    get_wifi_module_temperature tierAEnv = some 52 := by
  have h := tierA_max_c7 tierAEnv 52 (by decide) (by decide)
  rw [h]
  decide

/-- C9: the legacy variant computes `celsius = (raw - offset) * scale`; when
that transformed value is implausible but the raw value itself lies in
`[-40, 130]`, the raw value is returned instead. -/
theorem legacy_transform_c9 (offset scale raw : Rat) :
    (inRange ((raw - offset) * scale) = true →
      legacyTierA offset scale raw = some (round1 ((raw - offset) * scale))) ∧
    (inRange ((raw - offset) * scale) = false → inRange raw = true →
      legacyTierA offset scale raw = some (round1 raw)) := by
  constructor
  · intro h
    have ht : legacyTransform offset scale raw = (raw - offset) * scale := by
      rw [legacyTransform, if_neg (by simp [h])]
    rw [legacyTierA, ht, if_pos h]
  · intro h1 h2
    have ht : legacyTransform offset scale raw = raw := by
      rw [legacyTransform, if_pos (by simp [h1, h2])]
    rw [legacyTierA, ht, if_pos h2]

/-- Witness for C9: raw `58` with offset `32` and scale `2.5` gives
`(58 - 32) * 2.5 = 65.0`. -/
theorem legacy_transform_c9_witness :
    legacyTierA 32 (5 / 2) 58 = some 65 := by
  have h := (legacy_transform_c9 32 (5 / 2) 58).1 (by decide)
  rw [h]
  decide

end DroneControl
